import Mathlib

/-!
Verification of the kenyahomes254 access-control and validation layer.

The data model and the authorization rules below are a shallow embedding of
the SQL migrations in supabase/migrations (row-level-security policies,
the public_agent_profiles view, the saved_properties unique constraint,
the storage bucket policies) and of the plpgsql trigger function
validate_message_seeker.  Actors are modelled as Option Nat: none is the
anonymous actor (auth.uid() IS NULL), some u an authenticated identity.
-/

namespace KenyaHomes

/-- An actor identity: none is anonymous (auth.uid() IS NULL). -/
abbrev Actor := Option Nat

/-- Row of the profiles table (migration 20251120201901, second document). -/
structure Profile where
  id : Nat
  email : String
  role : String
  name : String
  phone : String
  verified : Bool
  created_at : Nat
deriving DecidableEq, Repr

/-- Row of the properties table. -/
structure Property where
  id : Nat
  agent_id : Nat
  title : String
  price : Nat
  for_rent : Bool
  city : String
  status : String
  created_at : Nat
deriving DecidableEq, Repr

/-- Row of the property_photos table. -/
structure PropertyPhoto where
  id : Nat
  property_id : Nat
  storage_path : String
  ordering : Nat
deriving DecidableEq, Repr

/-- Row of the saved_properties table. -/
structure SavedProperty where
  id : Nat
  user_id : Nat
  property_id : Nat
deriving DecidableEq, Repr

/-- Row of the messages table.  body, email and phone are nullable in the
trigger logic (body is NOT NULL in the schema but the trigger still tests
IS NULL, so it is kept as Option here). -/
structure Message where
  id : Nat
  property_id : Nat
  seeker_id : Nat
  agent_id : Nat
  body : Option String
  email : Option String
  phone : Option String
  status : String
deriving DecidableEq, Repr

/-- Row of storage.objects (bucket objects). -/
structure StorageObject where
  bucket_id : String
  name : String
deriving DecidableEq, Repr

/-- Row shape of the public_agent_profiles view: the column list of the
CREATE VIEW in migration 20251120201901. -/
structure PublicAgentProfile where
  id : Nat
  name : String
  role : String
  verified : Bool
  created_at : Nat
deriving DecidableEq, Repr

/-! ## Row-level security: profiles

After all migrations the SELECT policies remaining on profiles are
"Users can view own full profile" (auth.uid() = id, migration
20251120193752) and "Public can view agent profiles without email"
(role = agent AND auth.uid() IS NULL, migration 20251120201815).  A row
passes when any SELECT policy passes. -/

/-- Disjunction of the two surviving SELECT policies on profiles. -/
def profileRowVisible (actor : Actor) (p : Profile) : Bool :=
  actor == some p.id || (p.role == "agent" && actor == none)

/-- A base-table read of one profiles row: RLS filters rows, never
columns, so a visible row is returned in full. -/
def profilesRead (actor : Actor) (p : Profile) : Option Profile :=
  if profileRowVisible actor p then some p else none

/-- A read of one row through the public_agent_profiles view.  The view
selects id, name, role, verified, created_at from profiles where
role = agent, and runs with security_invoker = true, so the RLS of the
underlying profiles table is evaluated with the permissions of the
querying actor. -/
def publicAgentProfilesRead (actor : Actor) (p : Profile) :
    Option PublicAgentProfile :=
  if p.role == "agent" && profileRowVisible actor p then
    some ⟨p.id, p.name, p.role, p.verified, p.created_at⟩
  else none

/-! ## Row-level security: properties, property_photos -/

/-- Policy "Published properties are viewable by everyone":
status = published or agent_id = auth.uid().  An equality against a NULL
auth.uid() is not true in SQL, hence the some-match on the actor. -/
def propertyVisible (actor : Actor) (r : Property) : Bool :=
  r.status == "published" || actor == some r.agent_id

/-- A read of one properties row: full row when visible, absent otherwise. -/
def propertiesRead (actor : Actor) (r : Property) : Option Property :=
  if propertyVisible actor r then some r else none

/-- Policy "Photos viewable if property is viewable": there exists a
properties row with this photo id whose status is published or whose
agent is the actor.  props is the current contents of the properties
table. -/
def photoVisible (actor : Actor) (props : List Property)
    (ph : PropertyPhoto) : Bool :=
  props.any fun p => p.id == ph.property_id && propertyVisible actor p

/-! ## Storage bucket policies -/

/-- Policy "Public can view property images" on storage.objects:
SELECT TO public USING (bucket_id = property-images).  No condition on
the actor and none on the parent property. -/
def storageObjectReadable (_actor : Actor) (o : StorageObject) : Bool :=
  o.bucket_id == "property-images"

/-! ## saved_properties uniqueness -/

/-- Error raised by the saved_properties insert path. -/
inductive SavedInsertError where
  | uniqueViolation
deriving DecidableEq, Repr

/-- Does the store already hold a row with this (user_id, property_id)
pair?  Mirrors the unique (user_id, property_id) constraint. -/
def savedPairExists (store : List SavedProperty) (u p : Nat) : Bool :=
  store.any fun s => s.user_id == u && s.property_id == p

/-- Insert into saved_properties: the unique (user_id, property_id)
constraint rejects a duplicate pair, otherwise the row is appended. -/
def insertSavedProperty (store : List SavedProperty) (s : SavedProperty) :
    Except SavedInsertError (List SavedProperty) :=
  if savedPairExists store s.user_id s.property_id then
    Except.error SavedInsertError.uniqueViolation
  else
    Except.ok (store ++ [s])

/-- The store contents after an insert attempt: unchanged on failure. -/
def savedStoreAfter (store : List SavedProperty) (s : SavedProperty) :
    List SavedProperty :=
  match insertSavedProperty store s with
  | Except.ok t => t
  | Except.error _ => store

/-! ## The message validation trigger (validate_message_seeker)

Shallow embedding of the plpgsql function validate_message_seeker and of
the BEFORE INSERT trigger validate_message_before_insert on messages.
Each RAISE EXCEPTION of the source becomes one ValidationError value, in
the same order. -/

/-- One error value per RAISE EXCEPTION in validate_message_seeker. -/
inductive ValidationError where
  | seekerMismatch
  | invalidEmailFormat
  | emailTooLong
  | invalidPhoneFormat
  | phoneTooLong
  | emptyBody
  | bodyTooLong
deriving DecidableEq, Repr

/-- Character class of the local part of the email regex,
[A-Za-z0-9._%+-]. -/
def isLocalChar (c : Char) : Bool :=
  c.isAlpha || c.isDigit || c == '.' || c == '_' || c == '%' || c == '+'
    || c == '-'

/-- Character class of the domain part of the email regex, [A-Za-z0-9.-]. -/
def isDomainChar (c : Char) : Bool :=
  c.isAlpha || c.isDigit || c == '.' || c == '-'

/-- Split a character list at every occurrence of sep, keeping empty
segments, as SQL regex alternation over the separator does. -/
def splitOnChar (sep : Char) : List Char → List (List Char)
  | [] => [[]]
  | c :: cs =>
      let rest := splitOnChar sep cs
      if c == sep then [] :: rest
      else
        match rest with
        | r :: rs => (c :: r) :: rs
        | [] => [[c]]

/-- Does the domain part (the text after the single at sign) match
[A-Za-z0-9.-]+\.[A-Za-z]{2,} anchored?  Equivalently: every character in
the domain class, a last dot whose prefix is nonempty, and after the last
dot at least two letters. -/
def domainMatch (d : List Char) : Bool :=
  match (splitOnChar '.' d).reverse with
  | tld :: rest =>
      !rest.isEmpty && rest != [[]] && decide (2 ≤ tld.length)
        && tld.all Char.isAlpha && d.all isDomainChar
  | [] => false

/-- Anchored match of the email regex
^[A-Za-z0-9._%+-]+@[A-Za-z0-9.-]+\.[A-Za-z]{2,}$ of the trigger. -/
def emailFormatOk (s : String) : Bool :=
  match splitOnChar '@' s.data with
  | [localPart, domainPart] =>
      !localPart.isEmpty && localPart.all isLocalChar
        && domainMatch domainPart
  | _ => false

/-- regexp_replace(phone, [^0-9+], empty, g): keep only digits and plus
signs. -/
def stripPhone (s : String) : String :=
  String.mk (s.data.filter fun c => c.isDigit || c == '+')

/-- Anchored match of ^\+?[0-9]{6,20}$. -/
def phonePatternOk (s : String) : Bool :=
  match s.data with
  | '+' :: ds => ds.all Char.isDigit && decide (6 ≤ ds.length)
      && decide (ds.length ≤ 20)
  | ds => ds.all Char.isDigit && decide (6 ≤ ds.length)
      && decide (ds.length ≤ 20)

/-- SQL trim(text): strip space characters from both ends. -/
def sqlTrim (s : String) : String :=
  String.mk
    ((((s.data.dropWhile fun c => c == ' ').reverse.dropWhile
      fun c => c == ' ').reverse))

/-- Guard of the first RAISE: NEW.seeker_id != auth.uid().  A comparison
with a NULL auth.uid() is not true in SQL, so an anonymous uid never
trips this check. -/
def seekerViolation (uid : Actor) (m : Message) : Bool :=
  match uid with
  | some u => m.seeker_id != u
  | none => false

/-- Guard of RAISE Invalid email format (inside the email IS NOT NULL AND
email != empty block). -/
def emailFormatViolation (m : Message) : Bool :=
  match m.email with
  | some e => e != "" && !emailFormatOk e
  | none => false

/-- Guard of RAISE Email must be less than 255 characters. -/
def emailLengthViolation (m : Message) : Bool :=
  match m.email with
  | some e => e != "" && decide (255 < e.length)
  | none => false

/-- Guard of RAISE Invalid phone format: the stripped phone fails
^\+?[0-9]{6,20}$. -/
def phoneFormatViolation (m : Message) : Bool :=
  match m.phone with
  | some p => p != "" && !phonePatternOk (stripPhone p)
  | none => false

/-- Guard of RAISE Phone must be less than 20 characters (raw length). -/
def phoneLengthViolation (m : Message) : Bool :=
  match m.phone with
  | some p => p != "" && decide (20 < p.length)
  | none => false

/-- Guard of RAISE Message body cannot be empty:
body IS NULL OR trim(body) = empty. -/
def bodyEmptyViolation (m : Message) : Bool :=
  match m.body with
  | some b => sqlTrim b == ""
  | none => true

/-- Guard of RAISE Message must be less than 5000 characters. -/
def bodyLengthViolation (m : Message) : Bool :=
  match m.body with
  | some b => decide (5000 < b.length)
  | none => false

/-- The function validate_message_seeker: the guards fire in source
order, the first one that holds raises, and only when none holds is NEW
returned. -/
def validateMessageSeeker (uid : Actor) (m : Message) :
    Except ValidationError Message :=
  if seekerViolation uid m then Except.error ValidationError.seekerMismatch
  else if emailFormatViolation m then
    Except.error ValidationError.invalidEmailFormat
  else if emailLengthViolation m then
    Except.error ValidationError.emailTooLong
  else if phoneFormatViolation m then
    Except.error ValidationError.invalidPhoneFormat
  else if phoneLengthViolation m then
    Except.error ValidationError.phoneTooLong
  else if bodyEmptyViolation m then
    Except.error ValidationError.emptyBody
  else if bodyLengthViolation m then
    Except.error ValidationError.bodyTooLong
  else Except.ok m

/-! ## The four checks of the specification, as independent predicates -/

/-- Check 1: the payload seeker_id equals the authenticated actor id (an
anonymous uid makes the SQL comparison NULL, hence no violation). -/
def seekerCheck (uid : Actor) (m : Message) : Bool :=
  match uid with
  | some u => m.seeker_id == u
  | none => true

/-- Check 2: when email is present and nonempty, it matches the email
regex and has at most 255 characters. -/
def emailCheck (m : Message) : Bool :=
  match m.email with
  | some e => e == "" || (emailFormatOk e && decide (e.length ≤ 255))
  | none => true

/-- Check 3: when phone is present and nonempty, the stripped phone
matches the phone pattern and the raw phone has at most 20 characters. -/
def phoneCheck (m : Message) : Bool :=
  match m.phone with
  | some p => p == ""
      || (phonePatternOk (stripPhone p) && decide (p.length ≤ 20))
  | none => true

/-- Check 4: the body is present, nonempty after trimming, and has at
most 5000 characters. -/
def bodyCheck (m : Message) : Bool :=
  match m.body with
  | some b => sqlTrim b != "" && decide (b.length ≤ 5000)
  | none => false

/-! ## The message write path -/

/-- Outcome classes of a rejected write. -/
inductive WriteError where
  | permissionDenied
  | validation (e : ValidationError)
deriving DecidableEq, Repr

/-- An insert into messages: the BEFORE INSERT trigger runs first; the
row that survives it is then checked against the insert policy
"Authenticated users can send messages" WITH CHECK (auth.uid() =
seeker_id), and only then appended to the table. -/
def insertMessage (actor : Actor) (store : List Message) (m : Message) :
    Except WriteError (List Message) :=
  match validateMessageSeeker actor m with
  | Except.error e => Except.error (WriteError.validation e)
  | Except.ok m2 =>
      if actor == some m2.seeker_id then Except.ok (store ++ [m2])
      else Except.error WriteError.permissionDenied

/-- The messages table after an insert attempt: unchanged on failure. -/
def msgStoreAfter (actor : Actor) (store : List Message) (m : Message) :
    List Message :=
  match insertMessage actor store m with
  | Except.ok t => t
  | Except.error _ => store

/-- An update of a messages row: only the policy "Agents can update
message status" USING (auth.uid() = agent_id) applies (its USING clause
is also checked against the new row, as no WITH CHECK is given); the
validation trigger is BEFORE INSERT only, so no validation runs here. -/
def updateMessage (actor : Actor) (old new : Message) :
    Except WriteError Message :=
  if actor == some old.agent_id && actor == some new.agent_id then
    Except.ok new
  else Except.error WriteError.permissionDenied

/-! ## Comparison definition for the phone stripping step -/

/-- Modelled from the spec: the stripping step exactly as the spec words
it, removing only spaces, dashes and parentheses (for comparison with the
stripPhone of the source, which keeps only digits and plus signs). -/
def specStripPhone (s : String) : String :=
  String.mk (s.data.filter fun c =>
    !(c == ' ' || c == '-' || c == '(' || c == ')'))

/-! ## Concrete rows used in the evaluations below -/

/-- A 5000-character body made of spaces. -/
def blankBody5000 : String := String.mk (List.replicate 5000 ' ')

/-- An agent profile row. -/
def agentProfileC1 : Profile :=
  { id := 7, email := "agent7@example.com", role := "agent",
    name := "Agent Seven", phone := "0712345678", verified := true,
    created_at := 0 }

/-- A published property row. -/
def pubPropC2 : Property :=
  { id := 10, agent_id := 7, title := "Sunny flat", price := 100,
    for_rent := true, city := "Nairobi", status := "published",
    created_at := 0 }

/-- A draft property row. -/
def draftPropC3 : Property :=
  { id := 11, agent_id := 7, title := "Quiet house", price := 200,
    for_rent := false, city := "Mombasa", status := "draft",
    created_at := 0 }

/-- A photo row of the draft property above. -/
def photoC3 : PropertyPhoto :=
  { id := 1, property_id := 11, storage_path := "7/11/a.jpg",
    ordering := 0 }

/-- A message whose payload seeker does not match the actor used below. -/
def msgSpoofC5 : Message :=
  { id := 0, property_id := 10, seeker_id := 2, agent_id := 7,
    body := some "hello", email := none, phone := none,
    status := "unread" }

/-- A message with a whitespace-only body. -/
def msgBadC6 : Message :=
  { id := 0, property_id := 10, seeker_id := 2, agent_id := 7,
    body := some "  ", email := none, phone := none, status := "unread" }

/-- A message whose body is exactly 5000 characters, all spaces. -/
def msgBlankC7 : Message :=
  { id := 0, property_id := 10, seeker_id := 2, agent_id := 7,
    body := some blankBody5000, email := none, phone := none,
    status := "unread" }

/-- A message whose body is three spaces. -/
def msgSpacesC7 : Message :=
  { id := 0, property_id := 10, seeker_id := 2, agent_id := 7,
    body := some "   ", email := none, phone := none,
    status := "unread" }

/-- A message whose phone holds a letter next to enough digits. -/
def msgPhoneC8 : Message :=
  { id := 0, property_id := 10, seeker_id := 2, agent_id := 7,
    body := some "hello", email := none, phone := some "p0712345678",
    status := "unread" }

/-- A message whose phone has too few digits. -/
def msgShortPhoneC8 : Message :=
  { id := 0, property_id := 10, seeker_id := 2, agent_id := 7,
    body := some "hello", email := none, phone := some "12",
    status := "unread" }

/-- Another draft property row. -/
def draftPropC9 : Property :=
  { id := 12, agent_id := 7, title := "Hidden villa", price := 300,
    for_rent := false, city := "Kisumu", status := "draft",
    created_at := 0 }

/-- A photo row of the second draft property. -/
def photoC9 : PropertyPhoto :=
  { id := 2, property_id := 12, storage_path := "7/12/b.jpg",
    ordering := 0 }

/-- The stored binary object behind that photo. -/
def objC9 : StorageObject :=
  { bucket_id := "property-images", name := "7/12/b.jpg" }

/-- A stored message in its original valid shape. -/
def msgOldC10 : Message :=
  { id := 9, property_id := 10, seeker_id := 2, agent_id := 7,
    body := some "hi there", email := none, phone := none,
    status := "unread" }

/-- The same message after an update that empties the body and breaks
email and phone. -/
def msgNewC10 : Message :=
  { id := 9, property_id := 10, seeker_id := 2, agent_id := 7,
    body := some "", email := some "not-an-email", phone := some "abc",
    status := "read" }

/-! ## Helper lemmas -/

lemma seekerCheck_true_iff (uid : Actor) (m : Message) :
    seekerCheck uid m = true ↔ seekerViolation uid m = false := by
  cases uid <;> simp [seekerCheck, seekerViolation]

lemma emailCheck_true_iff (m : Message) :
    emailCheck m = true ↔
      (emailFormatViolation m = false ∧ emailLengthViolation m = false) := by
  unfold emailCheck emailFormatViolation emailLengthViolation
  cases m.email with
  | none => simp
  | some e =>
      by_cases he : e = ""
      · simp [he]
      · simp [he, Nat.not_lt]

lemma phoneCheck_true_iff (m : Message) :
    phoneCheck m = true ↔
      (phoneFormatViolation m = false ∧ phoneLengthViolation m = false) := by
  unfold phoneCheck phoneFormatViolation phoneLengthViolation
  cases m.phone with
  | none => simp
  | some p =>
      by_cases hp : p = ""
      · simp [hp]
      · simp [hp, Nat.not_lt]

lemma bodyCheck_true_iff (m : Message) :
    bodyCheck m = true ↔
      (bodyEmptyViolation m = false ∧ bodyLengthViolation m = false) := by
  unfold bodyCheck bodyEmptyViolation bodyLengthViolation
  cases m.body with
  | none => simp
  | some b => simp [Nat.not_lt]

lemma validate_ok_iff (uid : Actor) (m : Message) :
    validateMessageSeeker uid m = Except.ok m ↔
      (seekerCheck uid m = true ∧ emailCheck m = true ∧ phoneCheck m = true
        ∧ bodyCheck m = true) := by
  unfold validateMessageSeeker
  rw [seekerCheck_true_iff, emailCheck_true_iff, phoneCheck_true_iff,
    bodyCheck_true_iff]
  split_ifs with h1 h2 h3 h4 h5 h6 h7 <;>
    simp_all [Bool.not_eq_true]

lemma validate_ok_or_error (uid : Actor) (m : Message) :
    validateMessageSeeker uid m = Except.ok m
      ∨ ∃ e, validateMessageSeeker uid m = Except.error e := by
  unfold validateMessageSeeker
  split_ifs <;> simp

lemma insert_of_validate_error (actor : Actor) (store : List Message)
    (m : Message) (e : ValidationError)
    (h : validateMessageSeeker actor m = Except.error e) :
    insertMessage actor store m = Except.error (WriteError.validation e)
      ∧ msgStoreAfter actor store m = store := by
  simp [insertMessage, msgStoreAfter, h]

lemma insert_ok_validate (actor : Actor) (store t : List Message)
    (m : Message) (h : insertMessage actor store m = Except.ok t) :
    validateMessageSeeker actor m = Except.ok m := by
  rcases validate_ok_or_error actor m with hv | ⟨e, hv⟩
  · exact hv
  · simp [insertMessage, hv] at h

lemma phoneCheck_some (m : Message) (p : String) (h : m.phone = some p) :
    phoneCheck m
      = (p == "" || (phonePatternOk (stripPhone p)
          && decide (p.length ≤ 20))) := by
  unfold phoneCheck
  rw [h]

lemma dropWhile_space_replicate (n : Nat) :
    List.dropWhile (fun c => c == ' ') (List.replicate n ' ') = [] := by
  induction n with
  | zero => rfl
  | succ k ih => simp [List.replicate_succ, List.dropWhile_cons, ih]

lemma sqlTrim_blank5000 : sqlTrim blankBody5000 = "" := by
  unfold sqlTrim blankBody5000
  rw [show (String.mk (List.replicate 5000 ' ')).data
        = List.replicate 5000 ' ' from rfl,
    dropWhile_space_replicate]
  rfl

lemma blankBody5000_length : blankBody5000.length = 5000 := by
  rw [show blankBody5000.length = (List.replicate 5000 ' ').length from rfl,
    List.length_replicate]

/-! ## The claims -/

/-- C1: the claim says a read of a profile P by an actor A with
A.id different from P.id never yields email or phone, yields no row when
P.role is not agent, and yields exactly the safe subset when P.role is
agent.  The code violates this: the surviving policies on profiles are
(auth.uid() = id) and (role = agent AND auth.uid() IS NULL), and RLS
filters rows, never columns, so an anonymous base-table read of an agent
profile yields its full row, email and phone included; meanwhile an
authenticated actor distinct from the profile owner gets no agent row at
all, on the base table and through the security-invoker view alike. -/
theorem c1_profile_exposure :
    (profilesRead none agentProfileC1).map Profile.email
        = some "agent7@example.com"
    ∧ (profilesRead none agentProfileC1).map Profile.phone
        = some "0712345678"
    ∧ agentProfileC1.role = "agent"
    ∧ (42 : Nat) ≠ agentProfileC1.id
    ∧ profilesRead (some 42) agentProfileC1 = none
    ∧ publicAgentProfilesRead (some 42) agentProfileC1 = none := by
  refine ⟨rfl, rfl, rfl, by decide, rfl, rfl⟩

/-- C2: a property row is returned in full exactly when its status is
published or the actor is the owning agent, and a non-published row read
by anyone other than the owner is entirely absent. -/
theorem c2_property_visibility (actor : Actor) (r : Property) :
    (propertiesRead actor r = some r ↔
      (r.status = "published" ∨ actor = some r.agent_id))
    ∧ (r.status ≠ "published" → actor ≠ some r.agent_id →
        propertiesRead actor r = none) := by
  have hv : propertyVisible actor r = true ↔
      (r.status = "published" ∨ actor = some r.agent_id) := by
    simp [propertyVisible]
  constructor
  · cases hb : propertyVisible actor r
    · have hnd : ¬(r.status = "published" ∨ actor = some r.agent_id) := by
        rw [← hv, hb]
        simp
      simp [propertiesRead, hb]
      tauto
    · simp [propertiesRead, hb]
      exact hv.mp hb
  · intro h1 h2
    have : propertyVisible actor r = false := by
      rw [← Bool.not_eq_true, hv]
      tauto
    simp [propertiesRead, this]

theorem c2_witness :
    propertiesRead none pubPropC2 = some pubPropC2 :=
  ((c2_property_visibility none pubPropC2).1).mpr (Or.inl rfl)

/-- C3: a photo row is visible to an actor exactly when its parent
property row is visible to that actor under the property visibility
rule. -/
theorem c3_photo_follows_property (actor : Actor) (props : List Property)
    (ph : PropertyPhoto) (parent : Property)
    (hmem : parent ∈ props) (hid : parent.id = ph.property_id)
    (huniq : ∀ q ∈ props, q.id = ph.property_id → q = parent) :
    photoVisible actor props ph = propertyVisible actor parent := by
  cases hv : propertyVisible actor parent
  · rw [← Bool.not_eq_true]
    simp only [photoVisible, List.any_eq_true, not_exists]
    intro q h
    obtain ⟨hmq, hcond⟩ := h
    rw [Bool.and_eq_true] at hcond
    by_cases hq : q.id = ph.property_id
    · have hqp := huniq q hmq hq
      subst hqp
      exact absurd hcond.2 (by simp [hv])
    · exact absurd hcond.1 (by simp [hq])
  · rw [photoVisible, List.any_eq_true]
    exact ⟨parent, hmem, by simp [hid, hv]⟩

theorem c3_witness :
    photoVisible (some 7) [draftPropC3] photoC3
      = propertyVisible (some 7) draftPropC3 :=
  c3_photo_follows_property (some 7) [draftPropC3] photoC3 draftPropC3
    (by decide) (by decide) (by decide)

/-- C4: a SavedProperty insert for a (user_id, property_id) pair that
already has a row fails with a uniqueness violation and leaves the store
unchanged, so at most one row per pair ever exists. -/
theorem c4_saved_unique (store : List SavedProperty) (s : SavedProperty)
    (h : savedPairExists store s.user_id s.property_id = true) :
    insertSavedProperty store s
        = Except.error SavedInsertError.uniqueViolation
    ∧ savedStoreAfter store s = store := by
  simp [insertSavedProperty, savedStoreAfter, h]

theorem c4_witness :
    insertSavedProperty
        [{ id := 1, user_id := 2, property_id := 10 }]
        { id := 5, user_id := 2, property_id := 10 }
      = Except.error SavedInsertError.uniqueViolation
    ∧ savedStoreAfter
        [{ id := 1, user_id := 2, property_id := 10 }]
        { id := 5, user_id := 2, property_id := 10 }
      = [{ id := 1, user_id := 2, property_id := 10 }] :=
  c4_saved_unique _ _ (by decide)

/-- C5: a message insert whose payload seeker_id differs from the
authenticated actor id is rejected (the trigger raises before the insert
policy is even consulted) and the message store is unchanged. -/
theorem c5_seeker_spoof_rejected (u : Nat) (store : List Message)
    (m : Message) (h : m.seeker_id ≠ u) :
    insertMessage (some u) store m
        = Except.error
            (WriteError.validation ValidationError.seekerMismatch)
    ∧ msgStoreAfter (some u) store m = store := by
  have hv : seekerViolation (some u) m = true := by
    simp [seekerViolation, h]
  simp [insertMessage, msgStoreAfter, validateMessageSeeker, hv]

theorem c5_witness :
    insertMessage (some 3) [] msgSpoofC5
        = Except.error
            (WriteError.validation ValidationError.seekerMismatch)
    ∧ msgStoreAfter (some 3) [] msgSpoofC5 = [] :=
  c5_seeker_spoof_rejected 3 [] msgSpoofC5 (by decide)

/-- C6: the validator accepts exactly when all four independent checks
(seeker match, email, phone, body) hold, so an early pass never lets a
later violation through, and any single violated check rejects the whole
insert with a validation error, leaving the store unchanged. -/
theorem c6_all_checks (uid : Actor) (store : List Message) (m : Message) :
    (validateMessageSeeker uid m = Except.ok m ↔
      (seekerCheck uid m = true ∧ emailCheck m = true
        ∧ phoneCheck m = true ∧ bodyCheck m = true))
    ∧ ((seekerCheck uid m = false ∨ emailCheck m = false
          ∨ phoneCheck m = false ∨ bodyCheck m = false) →
        (∃ e, insertMessage uid store m
            = Except.error (WriteError.validation e))
          ∧ msgStoreAfter uid store m = store) := by
  refine ⟨validate_ok_iff uid m, ?_⟩
  intro h
  have hno : validateMessageSeeker uid m ≠ Except.ok m := by
    intro hok
    rw [validate_ok_iff] at hok
    rcases h with h | h | h | h <;> simp [h] at hok
  rcases validate_ok_or_error uid m with hv | ⟨e, hv⟩
  · exact absurd hv hno
  · obtain ⟨h1, h2⟩ := insert_of_validate_error uid store m e hv
    exact ⟨⟨e, h1⟩, h2⟩

theorem c6_witness :
    (∃ e, insertMessage (some 2) [] msgBadC6
        = Except.error (WriteError.validation e))
    ∧ msgStoreAfter (some 2) [] msgBadC6 = [] :=
  (c6_all_checks (some 2) [] msgBadC6).2
    (Or.inr (Or.inr (Or.inr (by decide))))

/-- C7 counterexample: a body of exactly 5000 characters, all of them
spaces, is rejected with the empty-body error although the claim states
that a body of exactly 5000 characters is accepted. -/
theorem c7_counterexample :
    blankBody5000.length = 5000
    ∧ msgBlankC7.body = some blankBody5000
    ∧ msgBlankC7.seeker_id = 2
    ∧ emailCheck msgBlankC7 = true
    ∧ phoneCheck msgBlankC7 = true
    ∧ insertMessage (some 2) [] msgBlankC7
        = Except.error (WriteError.validation ValidationError.emptyBody)
    ∧ msgStoreAfter (some 2) [] msgBlankC7 = [] := by
  have hva : validateMessageSeeker (some 2) msgBlankC7
      = Except.error ValidationError.emptyBody := by
    simp [validateMessageSeeker, seekerViolation, emailFormatViolation,
      emailLengthViolation, phoneFormatViolation, phoneLengthViolation,
      bodyEmptyViolation, msgBlankC7, sqlTrim_blank5000]
  refine ⟨blankBody5000_length, rfl, rfl, rfl, rfl, ?_, ?_⟩
  · simp [insertMessage, hva]
  · simp [msgStoreAfter, insertMessage, hva]

/-- C7 amended: for an insert by the authenticated seeker with valid
contact fields, a body that is empty after trimming is rejected, a body
of 5001 characters is rejected, and a body of exactly 5000 characters
that is not whitespace-only is accepted. -/
theorem c7_body_rules (u : Nat) (store : List Message) (m : Message)
    (b : String) (hb : m.body = some b) (hs : m.seeker_id = u)
    (he : emailCheck m = true) (hp : phoneCheck m = true) :
    (sqlTrim b = "" →
        insertMessage (some u) store m
            = Except.error (WriteError.validation ValidationError.emptyBody)
          ∧ msgStoreAfter (some u) store m = store)
    ∧ (b.length = 5001 →
        (∃ e, insertMessage (some u) store m
            = Except.error (WriteError.validation e))
          ∧ msgStoreAfter (some u) store m = store)
    ∧ (b.length = 5000 → sqlTrim b ≠ "" →
        insertMessage (some u) store m = Except.ok (store ++ [m])) := by
  have hsv : seekerViolation (some u) m = false := by
    simp [seekerViolation, hs]
  have hef : emailFormatViolation m = false :=
    ((emailCheck_true_iff m).mp he).1
  have hel : emailLengthViolation m = false :=
    ((emailCheck_true_iff m).mp he).2
  have hpf : phoneFormatViolation m = false :=
    ((phoneCheck_true_iff m).mp hp).1
  have hpl : phoneLengthViolation m = false :=
    ((phoneCheck_true_iff m).mp hp).2
  refine ⟨?_, ?_, ?_⟩
  · intro ht
    have hbe : bodyEmptyViolation m = true := by
      simp [bodyEmptyViolation, hb, ht]
    have hva : validateMessageSeeker (some u) m
        = Except.error ValidationError.emptyBody := by
      simp [validateMessageSeeker, hsv, hef, hel, hpf, hpl, hbe]
    exact ⟨by simp [insertMessage, hva],
      by simp [msgStoreAfter, insertMessage, hva]⟩
  · intro hlen
    by_cases ht : sqlTrim b = ""
    · have hbe : bodyEmptyViolation m = true := by
        simp [bodyEmptyViolation, hb, ht]
      have hva : validateMessageSeeker (some u) m
          = Except.error ValidationError.emptyBody := by
        simp [validateMessageSeeker, hsv, hef, hel, hpf, hpl, hbe]
      exact ⟨⟨ValidationError.emptyBody, by simp [insertMessage, hva]⟩,
        by simp [msgStoreAfter, insertMessage, hva]⟩
    · have hbe : bodyEmptyViolation m = false := by
        simp [bodyEmptyViolation, hb, ht]
      have hbl : bodyLengthViolation m = true := by
        simp [bodyLengthViolation, hb, hlen]
      have hva : validateMessageSeeker (some u) m
          = Except.error ValidationError.bodyTooLong := by
        simp [validateMessageSeeker, hsv, hef, hel, hpf, hpl, hbe, hbl]
      exact ⟨⟨ValidationError.bodyTooLong, by simp [insertMessage, hva]⟩,
        by simp [msgStoreAfter, insertMessage, hva]⟩
  · intro hlen ht
    have hbe : bodyEmptyViolation m = false := by
      simp [bodyEmptyViolation, hb, ht]
    have hbl : bodyLengthViolation m = false := by
      simp [bodyLengthViolation, hb, hlen]
    have hva : validateMessageSeeker (some u) m = Except.ok m := by
      simp [validateMessageSeeker, hsv, hef, hel, hpf, hpl, hbe, hbl]
    simp [insertMessage, hva, hs]

theorem c7_witness :
    insertMessage (some 2) [] msgSpacesC7
        = Except.error (WriteError.validation ValidationError.emptyBody)
    ∧ msgStoreAfter (some 2) [] msgSpacesC7 = [] :=
  (c7_body_rules 2 [] msgSpacesC7 "   " rfl rfl rfl rfl).1 (by decide)

/-- C8 counterexample: the phone p0712345678 still contains the letter p
after the stripping the claim describes (spaces, dashes, parentheses
only), so the claim says the insert is rejected; the code strips every
character that is not a digit or a plus sign, obtains 0712345678, and
accepts the insert. -/
theorem c8_counterexample :
    msgPhoneC8.phone = some "p0712345678"
    ∧ ("p0712345678" : String) ≠ ""
    ∧ ("p0712345678" : String).length ≤ 20
    ∧ phonePatternOk (specStripPhone "p0712345678") = false
    ∧ insertMessage (some 2) [] msgPhoneC8 = Except.ok [msgPhoneC8] := by
  refine ⟨rfl, by decide, by decide, by decide, rfl⟩

/-- C8 amended: for a present, nonempty phone the insert is accepted
only if the phone, after stripping every character that is not a digit
or a plus sign, matches the optional-leading-plus 6 to 20 digit pattern
and the raw value is at most 20 characters; a phone failing that
condition makes the insert fail with a validation error and leaves the
store unchanged. -/
theorem c8_phone_rules (u : Nat) (store : List Message) (m : Message)
    (p : String) (hp : m.phone = some p) (hne : p ≠ "") :
    ((∃ t, insertMessage (some u) store m = Except.ok t) →
        phonePatternOk (stripPhone p) = true ∧ p.length ≤ 20)
    ∧ ((phonePatternOk (stripPhone p) = false ∨ 20 < p.length) →
        (∃ e, insertMessage (some u) store m
            = Except.error (WriteError.validation e))
          ∧ msgStoreAfter (some u) store m = store) := by
  have heq := phoneCheck_some m p hp
  constructor
  · rintro ⟨t, ht⟩
    have hvok := insert_ok_validate (some u) store t m ht
    have hpc : phoneCheck m = true :=
      ((validate_ok_iff (some u) m).mp hvok).2.2.1
    rw [heq] at hpc
    simp [hne] at hpc
    exact hpc
  · intro hbad
    have hpcf : phoneCheck m = false := by
      rw [heq]
      rcases hbad with h | h
      · simp [hne, h]
      · simp [hne, h, show ¬(p.length ≤ 20) from by omega]
    have hno : validateMessageSeeker (some u) m ≠ Except.ok m := by
      intro hok
      rw [validate_ok_iff] at hok
      simp [hpcf] at hok
    rcases validate_ok_or_error (some u) m with hv | ⟨e, hv⟩
    · exact absurd hv hno
    · obtain ⟨h1, h2⟩ := insert_of_validate_error (some u) store m e hv
      exact ⟨⟨e, h1⟩, h2⟩

theorem c8_witness :
    (∃ e, insertMessage (some 2) [] msgShortPhoneC8
        = Except.error (WriteError.validation e))
    ∧ msgStoreAfter (some 2) [] msgShortPhoneC8 = [] :=
  (c8_phone_rules 2 [] msgShortPhoneC8 "12" rfl (by decide)).2
    (Or.inl (by decide))

/-- C9: every object of the property-images bucket is readable by every
actor, the anonymous one included, unconditionally; in particular the
binary photo of a draft property stays fetchable by an anonymous actor
even though the photo row itself is invisible to that actor. -/
theorem c9_storage_public (actor : Actor) (o : StorageObject)
    (h : o.bucket_id = "property-images") :
    storageObjectReadable actor o = true
    ∧ photoVisible none [draftPropC9] photoC9 = false
    ∧ storageObjectReadable none objC9 = true := by
  refine ⟨by simp [storageObjectReadable, h], by decide, rfl⟩

theorem c9_witness :
    storageObjectReadable (some 5) objC9 = true
    ∧ photoVisible none [draftPropC9] photoC9 = false :=
  ⟨(c9_storage_public (some 5) objC9 rfl).1,
    (c9_storage_public (some 5) objC9 rfl).2.1⟩

/-- C10: an update of a message by the actor whose id equals agent_id is
applied without any validation check: whatever body, email or phone the
new row carries, the update returns it unchanged and never raises a
validation error, because the trigger fires only BEFORE INSERT. -/
theorem c10_update_skips_validation (old new : Message)
    (hag : new.agent_id = old.agent_id) :
    updateMessage (some old.agent_id) old new = Except.ok new := by
  simp [updateMessage, hag]

theorem c10_witness :
    updateMessage (some 7) msgOldC10 msgNewC10 = Except.ok msgNewC10
    ∧ bodyCheck msgNewC10 = false
    ∧ emailCheck msgNewC10 = false
    ∧ phoneCheck msgNewC10 = false :=
  ⟨c10_update_skips_validation msgOldC10 msgNewC10 rfl,
    by decide, by decide, by decide⟩

end KenyaHomes
